import Mathlib

set_option maxHeartbeats 1000000

/-! Verification of the sap-cta-data-pipeline repository.

This file gives a shallow embedding of the two source files

  * `utils/plot_perpendicular_hit_distribution.py`
  * `utils/gui/benchmark/benchmark_plots_container.py`

and proves properties about them.  External collaborators (the FITS
loader, the Hillas-parameter fit `hillas_parameters_1`, the cleaning
algorithms and the assessment module) are modelled as function
parameters; everything computed by the repository itself (the pixel
grid, the axis endpoint `p2`, the basis vector `T`, the per-pixel
projections `dl`/`dp`, the fixed-range histogram, the CLI directory
expansion and output naming, and the GUI update flow) is embedded
from the source.

Machine floats are embedded as exact numbers: the geometric part over
`ℝ` (it uses `cos`, `sin`, `sqrt`), the pixel grid and the histogram
bin edges over `ℚ` (their literals are exact decimals).  The histogram
follows numpy semantics for explicit monotone bin edges: each bin
`[e i, e (i+1))` is half open, the last bin is closed, values outside
the edge range are ignored.
-/

namespace DataPipe

/-! Section: Geometry: the perpendicular hit distribution computation

`hillas_parameters_1` (external, ctapipe) returns an ellipse
descriptor; the code uses the fields `cen_x`, `cen_y`, `length`, `psi`. -/

structure HillasParams where
  cen_x : ℝ
  cen_y : ℝ
  length : ℝ
  psi : ℝ

/-- Embedding of `ctapipe.utils.linalg.normalise`: `vec / np.linalg.norm(vec)`.
`np.linalg.norm` of a 2-vector is the Euclidean norm. -/
noncomputable def norm2 (v : ℝ × ℝ) : ℝ :=
  Real.sqrt (v.1 ^ 2 + v.2 ^ 2)

noncomputable def normalise (v : ℝ × ℝ) : ℝ × ℝ :=
  (v.1 / norm2 v, v.2 / norm2 v)

/-- Source comment: `p1 = center of the ellipse` (source lines 161-163). -/
noncomputable def p1 (h : HillasParams) : ℝ × ℝ :=
  (h.cen_x, h.cen_y)

/-- Endpoint `p2` (source lines 165-167):
`p2_x = p1_x + h.length * np.cos(h.psi + np.pi/2)`,
`p2_y = p1_y + h.length * np.sin(h.psi + np.pi/2)`. -/
noncomputable def p2 (h : HillasParams) : ℝ × ℝ :=
  (h.cen_x + h.length * Real.cos (h.psi + Real.pi / 2),
   h.cen_y + h.length * Real.sin (h.psi + Real.pi / 2))

/-- Source line 170: `T = linalg.normalise(np.array([p1_x-p2_x, p1_y-p2_y]))`. -/
noncomputable def T (h : HillasParams) : ℝ × ℝ :=
  normalise ((p1 h).1 - (p2 h).1, (p1 h).2 - (p2 h).2)

/-- Source lines 176-179: `D = [p1_x-x, p1_y-y]`, `dl = D[0]*T[0] + D[1]*T[1]`
(per pixel). -/
noncomputable def dl (h : HillasParams) (pt : ℝ × ℝ) : ℝ :=
  ((p1 h).1 - pt.1) * (T h).1 + ((p1 h).2 - pt.2) * (T h).2

/-- Source lines 176-180: `dp = D[0]*T[1] - D[1]*T[0]` (per pixel). -/
noncomputable def dp (h : HillasParams) (pt : ℝ × ℝ) : ℝ :=
  ((p1 h).1 - pt.1) * (T h).2 - ((p1 h).2 - pt.2) * (T h).1

/-- Spec wording for the transverse component: displacement
`D = p1 - (x, y)` and `dp = D_x*T_y - D_y*T_x`. -/
noncomputable def dp_spec (h : HillasParams) (pt : ℝ × ℝ) : ℝ :=
  (h.cen_x - pt.1) * (T h).2 - (h.cen_y - pt.2) * (T h).1

/-- Spec wording for the longitudinal component: `dl = D.T` (dot product). -/
noncomputable def dl_spec (h : HillasParams) (pt : ℝ × ℝ) : ℝ :=
  (h.cen_x - pt.1) * (T h).1 + (h.cen_y - pt.2) * (T h).2

/-! Section: The pixel grid (source lines 137-146)

`np.linspace(-0.142555996776, 0.142555996776, 40)` in each axis,
`np.meshgrid` (default xy indexing), then flatten (row major:
for each y value, all x values). -/

/-- Embedding of `np.linspace(a, b, num)` with the default `endpoint=True`:
`num` samples `a + (b-a)*i/(num-1)`. -/
def linspace (a b : ℚ) (num : ℕ) : List ℚ :=
  (List.range num).map (fun i => a + (b - a) * (i : ℚ) / ((num : ℚ) - 1))

def num_pixels_x : ℕ := 40
def num_pixels_y : ℕ := 40

def xValuesQ : List ℚ := linspace (-0.142555996776) 0.142555996776 num_pixels_x
def yValuesQ : List ℚ := linspace (-0.142555996776) 0.142555996776 num_pixels_y

/-- The flattened meshgrid: `xx[i,j] = x[j]`, `yy[i,j] = y[i]`, flattened
row major, so the point list is `[(x j, y i) for i, for j]`. -/
def gridQ : List (ℚ × ℚ) := yValuesQ.flatMap (fun yv => xValuesQ.map (fun xv => (xv, yv)))

noncomputable def pixelPoints : List (ℝ × ℝ) :=
  gridQ.map (fun q : ℚ × ℚ => ((q.1 : ℝ), (q.2 : ℝ)))

/-- Flattened `xx.flatten()` as passed to `hillas_parameters_1`. -/
noncomputable def xFlat : List ℝ := pixelPoints.map Prod.fst

/-- Flattened `yy.flatten()` as passed to `hillas_parameters_1`. -/
noncomputable def yFlat : List ℝ := pixelPoints.map Prod.snd

/-! Section: The histogram (source lines 134 and 183-186)

`size_m = 0.2`; `axis.hist(dp.ravel(), bins=np.linspace(-size_m, size_m, 31))`. -/

def size_m : ℚ := 0.2

def binEdgesQ : List ℚ := linspace (-size_m) size_m 31

noncomputable def binEdgesR : List ℝ := binEdgesQ.map (fun q : ℚ => (q : ℝ))

/-- Membership test for one histogram bin `[lo, hi)`, closed on the right
when it is the last bin (numpy semantics). -/
def binPred {α : Type} [LinearOrder α] (lo hi : α) (lastBin : Bool) (v : α) : Bool :=
  decide (lo ≤ v) && (if lastBin then decide (v ≤ hi) else decide (v < hi))

/-- Counts per bin of `np.histogram(values, bins=edges)` for explicit
monotone `edges`: one count per consecutive edge pair. -/
def histCounts {α : Type} [LinearOrder α] : List α → List α → List ℕ
  | [], _ => []
  | [_], _ => []
  | lo :: hi :: rest, values =>
      values.countP (binPred lo hi rest.isEmpty) :: histCounts (hi :: rest) values

/-- The tail of the concrete bin-edge list `linspace (-0.2) 0.2 31`
after its first two entries (step `1/75 = 0.4/30`). -/
def binTailQ : List ℚ :=
  [-13/75, -12/75, -11/75, -10/75, -9/75, -8/75, -7/75, -6/75, -5/75, -4/75,
   -3/75, -2/75, -1/75, 0, 1/75, 2/75, 3/75, 4/75, 5/75, 6/75, 7/75, 8/75,
   9/75, 10/75, 11/75, 12/75, 13/75, 14/75, 15/75]

/-! Section: The per-image procedure `plot_perpendicular_hit_distribution`
(source lines 130-188)

The function takes a single `image_array`, deep-copies it twice into
`ref_image_array` and `cleaned_image_array`, fits Hillas parameters to
each copy, and histograms the per-pixel `dp` for each.  The fit is the
external collaborator `fit` (called with the flattened grid and the
flattened image, like `hillas_parameters_1(xx.flatten(), yy.flatten(),
img.flatten())`). -/

noncomputable def perpHistOne (h : HillasParams) : List ℕ :=
  let dlList := pixelPoints.map (fun pt => dl h pt)
  let dpList := pixelPoints.map (fun pt => dp h pt)
  histCounts binEdgesR dpList

noncomputable def perpHist (fit : List ℝ → List ℝ → List ℝ → HillasParams)
    (image_array : List ℝ) : List ℕ × List ℕ :=
  let ref_image_array := image_array
  let cleaned_image_array := image_array
  let hillas_ref := fit xFlat yFlat ref_image_array
  let hillas_cleaned := fit xFlat yFlat cleaned_image_array
  (perpHistOne hillas_ref, perpHistOne hillas_cleaned)

/-! Section: Batch script `main()` (source lines 197-265) -/

/-- Loaded benchmark FITS content, reduced to what the checked code
inspects: the dimensionalities of the two named arrays plus their
flattened data. -/
structure FitsData where
  inputNdim : ℕ
  refNdim : ℕ
  inputImg : List ℝ
  refImg : List ℝ

/-- One iteration of the per-file body of `main` (source lines 234-252):
load, check that both images are 2D (raising otherwise), then compute the
perpendicular hit distribution of the reference image. -/
noncomputable def processFile (fit : List ℝ → List ℝ → List ℝ → HillasParams)
    (d : FitsData) : Except String (List ℕ × List ℕ) :=
  if d.inputNdim ≠ 2 then
    Except.error "Unexpected error: the input FITS file should contain a 2D array."
  else if d.refNdim ≠ 2 then
    Except.error "Unexpected error: the input FITS file should contain a 2D array."
  else
    Except.ok (perpHist fit d.refImg)

/-- Abstract filesystem for the argument-expansion step of `main`. -/
structure FileSystem where
  isdir : String → Bool
  fits_files : String → List String

/-- The local names bound in `main()` when the directory branch at source
line 225 executes (the argparse results and the loop variable).  The name
`input_directory_path` used at that line is never assigned anywhere in
the file. -/
def mainScopeNames : List String :=
  ["parser", "args", "quiet", "output", "input_file_or_dir_path_list",
   "input_file_or_dir_path"]

/-- Python name resolution for a local variable read: a NameError when
the name is not bound. -/
def lookupVar (scope : List String) (n : String) : Except String Unit :=
  if n ∈ scope then Except.ok ()
  else Except.error ("NameError: name " ++ n ++ " is not defined")

/-- Source lines 224-227: a directory argument is expanded via
`common.get_fits_files_list(input_directory_path)` — evaluating the
argument first resolves the name `input_directory_path`; a plain file
argument becomes a one-element list. -/
def expandInputArg (fs : FileSystem) (arg : String) : Except String (List String) :=
  if fs.isdir arg then
    match lookupVar mainScopeNames "input_directory_path" with
    | Except.ok _ => Except.ok (fs.fits_files arg)
    | Except.error e => Except.error e
  else
    Except.ok [arg]

/-- Embedding of `os.path.basename`: the part of the path after the last slash. -/
def basename (p : String) : String :=
  String.mk (p.toList.foldl (fun acc c => if c == '/' then [] else acc ++ [c]) [])

/-- The root part of `os.path.splitext`: split at the last dot that has a
non-dot character somewhere before it; otherwise return the whole name. -/
def splitextRoot (p : String) : String :=
  let cs := p.toList
  let dotIdxs := (List.range cs.length).filter
    (fun i => (cs.getD i ' ' == '.') && (List.range i).any (fun j => cs.getD j ' ' != '.'))
  match dotIdxs.getLast? with
  | some i => String.mk (cs.take i)
  | none => p

/-- Source lines 256-262, iterated over the flattened input file list:
`output` is the mutable variable initialised from `--output` before the
loop; when it is `None` it is assigned `basename-without-extension + ".pdf"`
and then `plt.savefig(output)` runs.  The returned list holds the path each
file's figure is saved to, in processing order. -/
def savePathsAux (output : Option String) : List String → List String
  | [] => []
  | input_file_path :: rest =>
      let base_file_path := splitextRoot (basename input_file_path)
      let out := match output with
        | none => base_file_path ++ ".pdf"
        | some o => o
      out :: savePathsAux (some out) rest

def savePaths (output : Option String) (files : List String) : List String :=
  savePathsAux output files

/-! Section: GUI method `BenchmarkPlotsContainer.update_plots` of (source lines 117-208)

The collaborators (loader, the two cleaning algorithms, the assessment
module) are function fields; `AssessError` is modelled as a `String`
error value.  Console output is modelled only for the two per-algorithm
assessment `try/except` blocks, as tagged lines. -/

structure Collaborators where
  load : String → FitsData
  tailcut_clean : List ℝ → List ℝ
  wavelets_clean : Bool → String → List ℝ → List ℝ
  assess : List ℝ → List ℝ → List ℝ → Except String (List ℝ × List String)

structure GuiState where
  current_file_path : Option String
  kill_isolated_pixels : Bool
  wavelets_options : String
  figure : List (String × List ℝ)
  console : List String
  canvasDraws : ℕ

/-- Embedding of `update_plots`: everything runs only under `if self.current_file_path
is not None`.  The two dimension checks raise (modelled as
`Except.error`); each assessment call sits in its own `try/except
AssessError` that only prints; then `clear_figure` (clears the figure and
redraws the canvas), the four `_draw_image` calls, and a final canvas
redraw. -/
def update_plots (c : Collaborators) (s : GuiState) : Except String GuiState :=
  match s.current_file_path with
  | none => Except.ok s
  | some path =>
      let d := c.load path
      let input_img := d.inputImg
      let reference_img := d.refImg
      if d.inputNdim ≠ 2 then
        Except.error "Unexpected error: the input FITS file should contain a 2D array."
      else if d.refNdim ≠ 2 then
        Except.error "Unexpected error: the input FITS file should contain a 2D array."
      else
        let tailcut_cleaned_img := c.tailcut_clean input_img
        let wavelets_cleaned_img := c.wavelets_clean s.kill_isolated_pixels s.wavelets_options input_img
        let tcLine := match c.assess input_img tailcut_cleaned_img reference_img with
          | Except.ok _ => "TC: ok"
          | Except.error _ => "TC: AssessError"
        let wtLine := match c.assess input_img wavelets_cleaned_img reference_img with
          | Except.ok _ => "WT: ok"
          | Except.error _ => "WT: AssessError"
        let s1 : GuiState := { s with figure := [], canvasDraws := s.canvasDraws + 1 }
        Except.ok { s1 with
          figure := [("Input", input_img), ("Reference", reference_img),
                     ("Tailcut", tailcut_cleaned_img), ("Wavelets", wavelets_cleaned_img)],
          console := s.console ++ [tcLine, wtLine],
          canvasDraws := s1.canvasDraws + 1 }

/-! Section: Concrete fixtures used by witness theorems -/

noncomputable def fitW : List ℝ → List ℝ → List ℝ → HillasParams := fun _ _ _ => ⟨0, 0, 0, 0⟩

def dBad : FitsData := ⟨3, 2, [], []⟩
def dGood : FitsData := ⟨2, 2, [], []⟩
def cBad : Collaborators := ⟨fun _ => dBad, fun l => l, fun _ _ l => l, fun _ _ _ => Except.error "AssessError"⟩
def cGood : Collaborators := ⟨fun _ => dGood, fun l => l, fun _ _ l => l, fun _ _ _ => Except.error "AssessError"⟩
def sBad : GuiState := ⟨some "f.fits", false, "-K -k -C1 -m3 -s3 -n4", [], [], 0⟩
def sGood : GuiState := ⟨some "f.fits", false, "-K -k -C1 -m3 -s3 -n4", [], [], 0⟩
def sNone : GuiState := ⟨none, false, "-K -k -C1 -m3 -s3 -n4", [], [], 0⟩
def fsDir : FileSystem := ⟨fun _ => true, fun _ => []⟩

/-! Section: Histogram lemmas -/

theorem histCounts_cons_cons {α : Type} [LinearOrder α] (lo hi : α) (rest values : List α) :
    histCounts (lo :: hi :: rest) values =
      values.countP (binPred lo hi rest.isEmpty) :: histCounts (hi :: rest) values := rfl

theorem histCounts_length {α : Type} [LinearOrder α] (edges values : List α) :
    (histCounts edges values).length = edges.length - 1 := by
  induction edges with
  | nil => simp [histCounts]
  | cons lo tail ih =>
    cases tail with
    | nil => simp [histCounts]
    | cons hi rest =>
      rw [histCounts_cons_cons, List.length_cons, ih]
      simp

theorem histCounts_sum_nil {α : Type} [LinearOrder α] (edges : List α) :
    (histCounts edges ([] : List α)).sum = 0 := by
  induction edges with
  | nil => rfl
  | cons lo tail ih =>
    cases tail with
    | nil => rfl
    | cons hi rest =>
      rw [histCounts_cons_cons, List.sum_cons, ih, List.countP_nil]

theorem histCounts_sum_cons {α : Type} [LinearOrder α] (edges : List α) (v : α) (vs : List α) :
    (histCounts edges (v :: vs)).sum = (histCounts edges [v]).sum + (histCounts edges vs).sum := by
  induction edges with
  | nil => simp [histCounts]
  | cons lo tail ih =>
    cases tail with
    | nil => simp [histCounts]
    | cons hi rest =>
      rw [histCounts_cons_cons, histCounts_cons_cons, histCounts_cons_cons,
        List.sum_cons, List.sum_cons, List.sum_cons, ih, List.countP_cons]
      have h2 : List.countP (binPred lo hi rest.isEmpty) [v] =
          if binPred lo hi rest.isEmpty v then 1 else 0 := by
        simp [List.countP_cons]
      rw [h2]
      generalize (if binPred lo hi rest.isEmpty v then 1 else 0) = w
      omega

theorem chain_head_le_getLastD {α : Type} [LinearOrder α] :
    ∀ (l : List α) (a : α), (a :: l).Chain' (· < ·) → a ≤ l.getLastD a := by
  intro l
  induction l with
  | nil => intro a _; simp
  | cons b t ih =>
    intro a hch
    rw [List.getLastD_cons]
    have hab : a < b := (List.chain'_cons.mp hch).1
    exact le_trans hab.le (ih b (List.chain'_cons.mp hch).2)

theorem histCounts_single {α : Type} [LinearOrder α] (rest : List α) :
    ∀ (lo hi : α), (lo :: hi :: rest).Chain' (· < ·) → ∀ v : α,
      (histCounts (lo :: hi :: rest) [v]).sum =
        if lo ≤ v ∧ v ≤ rest.getLastD hi then 1 else 0 := by
  induction rest with
  | nil =>
    intro lo hi _ v
    rw [histCounts_cons_cons]
    simp [histCounts, binPred, List.countP_cons]
  | cons h2 t ih =>
    intro lo hi hch v
    rw [histCounts_cons_cons]
    have hch2 : (hi :: h2 :: t).Chain' (· < ·) := (List.chain'_cons.mp hch).2
    have hlohi : lo < hi := (List.chain'_cons.mp hch).1
    have hhiL : hi ≤ t.getLastD h2 := by
      have hle := chain_head_le_getLastD (h2 :: t) hi hch2
      rwa [List.getLastD_cons] at hle
    rw [List.sum_cons, ih hi h2 hch2 v, List.getLastD_cons]
    have hcnt : List.countP (binPred lo hi (h2 :: t).isEmpty) [v] =
        if lo ≤ v ∧ v < hi then 1 else 0 := by
      simp [binPred, List.countP_cons]
    rw [hcnt]
    rcases lt_or_le v hi with hv | hv
    · have hnot2 : ¬(hi ≤ v ∧ v ≤ t.getLastD h2) := fun hc => absurd hc.1 (not_le.mpr hv)
      rw [if_neg hnot2]
      by_cases hlo : lo ≤ v
      · rw [if_pos ⟨hlo, hv⟩, if_pos ⟨hlo, le_trans hv.le hhiL⟩]
      · rw [if_neg (fun hc => hlo hc.1), if_neg (fun hc => hlo hc.1)]
    · have hnot1 : ¬(lo ≤ v ∧ v < hi) := fun hc => absurd hc.2 (not_lt.mpr hv)
      rw [if_neg hnot1]
      have hlov : lo ≤ v := le_trans hlohi.le hv
      by_cases hvL : v ≤ t.getLastD h2
      · rw [if_pos ⟨hv, hvL⟩, if_pos ⟨hlov, hvL⟩]
      · rw [if_neg (fun hc => hvL hc.2), if_neg (fun hc => hvL hc.2)]

theorem histCounts_sum_eq {α : Type} [LinearOrder α] (lo hi : α) (rest : List α)
    (hch : (lo :: hi :: rest).Chain' (· < ·)) :
    ∀ values : List α,
      (histCounts (lo :: hi :: rest) values).sum =
        values.countP (binPred lo (rest.getLastD hi) true) := by
  intro values
  induction values with
  | nil => rw [histCounts_sum_nil, List.countP_nil]
  | cons v vs ih =>
    rw [histCounts_sum_cons, ih, histCounts_single rest lo hi hch v, List.countP_cons]
    have hpred : binPred lo (rest.getLastD hi) true v = true ↔
        (lo ≤ v ∧ v ≤ rest.getLastD hi) := by
      simp [binPred]
    by_cases hc : lo ≤ v ∧ v ≤ rest.getLastD hi
    · rw [if_pos hc, if_pos (hpred.mpr hc)]
      omega
    · rw [if_neg hc, if_neg (fun hb => hc (hpred.mp hb))]
      omega

theorem getLastD_map {α β : Type} (f : α → β) (l : List α) :
    ∀ d : α, (l.map f).getLastD (f d) = f (l.getLastD d) := by
  induction l with
  | nil => intro d; rfl
  | cons a t ih =>
    intro d
    rw [List.map_cons, List.getLastD_cons, List.getLastD_cons, ih]

/-! Section: Claim C1: the fixed-range histogram -/

/-- C1: for every input image, the perpendicular-hit-distribution
computation bins the transverse distances `dp` into a histogram with
exactly 30 equal-width bins spanning `[-0.2, 0.2]` (the edge list is
`-1/5 + i/75` for `i = 0..30`), and the total count across bins equals
the number of pixels whose transverse distance lies within that range
(`-1/5 ≤ dp ≤ 1/5`); pixels outside the range are excluded. -/
theorem C1_histogram_binning :
    binEdgesQ = (List.range 31).map (fun i => -1/5 + (i : ℚ) * (1/75)) ∧
    ∀ (fit : List ℝ → List ℝ → List ℝ → HillasParams) (image_array : List ℝ),
      (perpHist fit image_array).1.length = 30 ∧
      (perpHist fit image_array).2.length = 30 ∧
      (perpHist fit image_array).1.sum =
        (pixelPoints.map (fun pt => dp (fit xFlat yFlat image_array) pt)).countP
          (binPred (-(1/5) : ℝ) ((1/5) : ℝ) true) ∧
      (perpHist fit image_array).2.sum =
        (pixelPoints.map (fun pt => dp (fit xFlat yFlat image_array) pt)).countP
          (binPred (-(1/5) : ℝ) ((1/5) : ℝ) true) := by
  have hrange : List.range 31 = [0, 1, 2, 3, 4, 5, 6, 7, 8, 9, 10, 11, 12, 13, 14, 15,
      16, 17, 18, 19, 20, 21, 22, 23, 24, 25, 26, 27, 28, 29, 30] := rfl
  have hsplitQ : binEdgesQ = (-1/5 : ℚ) :: (-14/75 : ℚ) :: binTailQ := by
    unfold binEdgesQ linspace
    rw [hrange]
    norm_num [binTailQ, size_m]
  have hchainQ : binEdgesQ.Chain' (· < ·) := by
    rw [hsplitQ]
    norm_num [binTailQ, List.chain'_cons, List.chain'_singleton]
  have hlastQ : binTailQ.getLastD (-14/75 : ℚ) = 1/5 := by
    norm_num [binTailQ, List.getLastD_cons, List.getLastD_nil]
  have hsplitR : binEdgesR =
      ((-1/5 : ℚ) : ℝ) :: ((-14/75 : ℚ) : ℝ) :: binTailQ.map (fun q : ℚ => (q : ℝ)) := by
    show binEdgesQ.map (fun q : ℚ => (q : ℝ)) = _
    rw [hsplitQ]
    rfl
  have hchainR : binEdgesR.Chain' (· < ·) := by
    show (binEdgesQ.map (fun q : ℚ => (q : ℝ))).Chain' (· < ·)
    rw [List.chain'_map]
    exact hchainQ.imp (fun a b hab => Rat.cast_lt.mpr hab)
  have hchainR2 : (((-1/5 : ℚ) : ℝ) :: ((-14/75 : ℚ) : ℝ) ::
      binTailQ.map (fun q : ℚ => (q : ℝ))).Chain' (· < ·) := by
    rw [← hsplitR]; exact hchainR
  have hlastR : (binTailQ.map (fun q : ℚ => (q : ℝ))).getLastD (((-14/75 : ℚ) : ℝ)) =
      ((1/5 : ℚ) : ℝ) := by
    rw [getLastD_map, hlastQ]
  have hcast1 : ((-1/5 : ℚ) : ℝ) = (-(1/5) : ℝ) := by norm_num
  have hcast2 : ((1/5 : ℚ) : ℝ) = ((1/5) : ℝ) := by norm_num
  have hlenR : binEdgesR.length = 31 := by
    rw [hsplitR]
    rfl
  constructor
  · rw [hsplitQ, hrange]
    norm_num [binTailQ]
  · intro fit image_array
    refine ⟨?_, ?_, ?_, ?_⟩
    · show (histCounts binEdgesR
        (pixelPoints.map (fun pt => dp (fit xFlat yFlat image_array) pt))).length = 30
      rw [histCounts_length, hlenR]
    · show (histCounts binEdgesR
        (pixelPoints.map (fun pt => dp (fit xFlat yFlat image_array) pt))).length = 30
      rw [histCounts_length, hlenR]
    · show (histCounts binEdgesR
        (pixelPoints.map (fun pt => dp (fit xFlat yFlat image_array) pt))).sum = _
      rw [hsplitR, histCounts_sum_eq _ _ _ hchainR2, hlastR, hcast1, hcast2]
    · show (histCounts binEdgesR
        (pixelPoints.map (fun pt => dp (fit xFlat yFlat image_array) pt))).sum = _
      rw [hsplitR, histCounts_sum_eq _ _ _ hchainR2, hlastR, hcast1, hcast2]

/-! Section: Claim C2: the direction of the basis vector `T` -/

theorem sq_sum_pos {v : ℝ × ℝ} (hv : v.1 ≠ 0 ∨ v.2 ≠ 0) : 0 < v.1 ^ 2 + v.2 ^ 2 := by
  rcases hv with h | h
  · have h1 : 0 < v.1 ^ 2 := by rw [← sq_abs]; exact pow_pos (abs_pos.mpr h) 2
    have h2 : 0 ≤ v.2 ^ 2 := sq_nonneg _
    linarith
  · have h1 : 0 < v.2 ^ 2 := by rw [← sq_abs]; exact pow_pos (abs_pos.mpr h) 2
    have h2 : 0 ≤ v.1 ^ 2 := sq_nonneg _
    linarith

theorem norm2_normalise {v : ℝ × ℝ} (hv : v.1 ≠ 0 ∨ v.2 ≠ 0) : norm2 (normalise v) = 1 := by
  have hs : 0 < v.1 ^ 2 + v.2 ^ 2 := sq_sum_pos hv
  have hss : Real.sqrt (v.1 ^ 2 + v.2 ^ 2) ^ 2 = v.1 ^ 2 + v.2 ^ 2 := Real.sq_sqrt hs.le
  have key : (v.1 / Real.sqrt (v.1 ^ 2 + v.2 ^ 2)) ^ 2 +
      (v.2 / Real.sqrt (v.1 ^ 2 + v.2 ^ 2)) ^ 2 = 1 := by
    rw [div_pow, div_pow, hss, div_add_div_same, div_self hs.ne']
  show Real.sqrt ((v.1 / Real.sqrt (v.1 ^ 2 + v.2 ^ 2)) ^ 2 +
      (v.2 / Real.sqrt (v.1 ^ 2 + v.2 ^ 2)) ^ 2) = 1
  rw [key, Real.sqrt_one]

/-- C2 counterexample: the claim says `T = normalise(p2 - p1)` (pointing
from the centroid `p1` to the axis endpoint `p2`).  For the Hillas
parameters `cen = (0,0)`, `length = 1`, `psi = 0` we have `p1 ≠ p2` but
the computed `T = normalise(p1 - p2) = (0,-1)` differs from
`normalise(p2 - p1) = (0,1)`. -/
theorem C2_counterexample :
    p1 ⟨0, 0, 1, 0⟩ ≠ p2 ⟨0, 0, 1, 0⟩ ∧
    T ⟨0, 0, 1, 0⟩ ≠ normalise ((p2 ⟨0, 0, 1, 0⟩).1 - (p1 ⟨0, 0, 1, 0⟩).1,
                                (p2 ⟨0, 0, 1, 0⟩).2 - (p1 ⟨0, 0, 1, 0⟩).2) := by
  have hp1 : p1 ⟨0, 0, 1, 0⟩ = ((0 : ℝ), (0 : ℝ)) := rfl
  have hp2 : p2 ⟨0, 0, 1, 0⟩ = ((0 : ℝ), (1 : ℝ)) := by
    simp [p2, Real.cos_pi_div_two, Real.sin_pi_div_two]
  have hnorm : norm2 ((0 : ℝ), (-1 : ℝ)) = 1 := by
    simp [norm2]
  have hnorm2 : norm2 ((0 : ℝ), (1 : ℝ)) = 1 := by
    simp [norm2]
  have hT : T ⟨0, 0, 1, 0⟩ = ((0 : ℝ), (-1 : ℝ)) := by
    have harg : ((p1 ⟨0, 0, 1, 0⟩).1 - (p2 ⟨0, 0, 1, 0⟩).1,
        (p1 ⟨0, 0, 1, 0⟩).2 - (p2 ⟨0, 0, 1, 0⟩).2) = ((0 : ℝ), (-1 : ℝ)) := by
      rw [hp1, hp2]
      norm_num
    show normalise _ = _
    rw [harg, normalise, hnorm]
    norm_num
  have hR : normalise ((p2 ⟨0, 0, 1, 0⟩).1 - (p1 ⟨0, 0, 1, 0⟩).1,
      (p2 ⟨0, 0, 1, 0⟩).2 - (p1 ⟨0, 0, 1, 0⟩).2) = ((0 : ℝ), (1 : ℝ)) := by
    have harg : ((p2 ⟨0, 0, 1, 0⟩).1 - (p1 ⟨0, 0, 1, 0⟩).1,
        (p2 ⟨0, 0, 1, 0⟩).2 - (p1 ⟨0, 0, 1, 0⟩).2) = ((0 : ℝ), (1 : ℝ)) := by
      rw [hp1, hp2]
      norm_num
    rw [harg, normalise, hnorm2]
    norm_num
  constructor
  · rw [hp1, hp2]
    intro heq
    have hsnd := congrArg Prod.snd heq
    norm_num at hsnd
  · rw [hT, hR]
    intro heq
    have hsnd := congrArg Prod.snd heq
    norm_num at hsnd

/-- C2 amended: the basis vector `T` is the unit vector pointing from the
axis endpoint `p2` to the centroid `p1`, i.e. `T = normalise(p1 - p2)`;
whenever `p1 ≠ p2` it has unit Euclidean norm. -/
theorem C2_T_direction (h : HillasParams) :
    T h = normalise ((p1 h).1 - (p2 h).1, (p1 h).2 - (p2 h).2) ∧
    (p1 h ≠ p2 h → norm2 (T h) = 1) := by
  constructor
  · rfl
  · intro hne
    have hcomp : (p1 h).1 - (p2 h).1 ≠ 0 ∨ (p1 h).2 - (p2 h).2 ≠ 0 := by
      by_contra hcon
      push_neg at hcon
      apply hne
      exact Prod.ext_iff.mpr ⟨sub_eq_zero.mp hcon.1, sub_eq_zero.mp hcon.2⟩
    exact norm2_normalise hcomp

/-- C2 witness: a concrete fit result with `p1 ≠ p2` at which the amended
claim evaluates. -/
theorem C2_T_direction_witness : norm2 (T ⟨0, 0, 1, 0⟩) = 1 :=
  (C2_T_direction ⟨0, 0, 1, 0⟩).2 (by
    intro heq
    have h2 := congrArg Prod.snd heq
    simp [p1, p2, Real.sin_pi_div_two] at h2)

/-! Section: Claim C3: the axis endpoint `p2` -/

/-- C3: for every fit result, `p2 = p1 + length * (cos(psi + pi/2),
sin(psi + pi/2))` — the offset direction uses `psi + pi/2`; and it is not
in general the `psi` direction (witnessed at `psi = 0`, `length = 1`). -/
theorem C3_p2_offset :
    (∀ h : HillasParams,
      p2 h = p1 h + h.length • (Real.cos (h.psi + Real.pi / 2), Real.sin (h.psi + Real.pi / 2))) ∧
    (∃ h : HillasParams,
      p2 h ≠ p1 h + h.length • (Real.cos h.psi, Real.sin h.psi)) := by
  constructor
  · intro h
    simp [p2, p1, Prod.smul_mk, smul_eq_mul, Prod.mk_add_mk]
  · refine ⟨⟨0, 0, 1, 0⟩, ?_⟩
    intro heq
    have h1 := congrArg Prod.fst heq
    simp [p2, p1, Prod.smul_mk, smul_eq_mul, Prod.mk_add_mk,
      Real.cos_pi_div_two, Real.cos_zero] at h1

/-! Section: Claim C4: the per-pixel projection and what is histogrammed -/

/-- C4: per pixel, the displacement is `D = p1 - (x, y)`; the histogrammed
quantity is the transverse component `dp = D_x*T_y - D_y*T_x`; the
longitudinal component `dl = D.T` is computed but has no effect: the
output of the procedure is exactly the fixed-bin histogram of the `dp`
values. -/
theorem C4_projection :
    (∀ (h : HillasParams) (pt : ℝ × ℝ), dp h pt = dp_spec h pt ∧ dl h pt = dl_spec h pt) ∧
    ∀ (fit : List ℝ → List ℝ → List ℝ → HillasParams) (image_array : List ℝ),
      perpHist fit image_array =
        (histCounts binEdgesR
          (pixelPoints.map (fun pt => dp_spec (fit xFlat yFlat image_array) pt)),
         histCounts binEdgesR
          (pixelPoints.map (fun pt => dp_spec (fit xFlat yFlat image_array) pt))) :=
  ⟨fun _ _ => ⟨rfl, rfl⟩, fun _ _ => rfl⟩

/-! Section: Claim C5: both distributions come from the same single input -/

/-- C5: `plot_perpendicular_hit_distribution` deep-copies its single
`image_array` into both the "ref." and the "cleaned" inputs, so the two
binned frequency distributions it produces are always identical; no
second image can enter through this interface (its type takes one
image). -/
theorem C5_duplicate_input (fit : List ℝ → List ℝ → List ℝ → HillasParams)
    (image_array : List ℝ) :
    perpHist fit image_array =
      (perpHistOne (fit xFlat yFlat image_array), perpHistOne (fit xFlat yFlat image_array)) ∧
    (perpHist fit image_array).1 = (perpHist fit image_array).2 :=
  ⟨rfl, rfl⟩

/-! Section: Claim C6: directory arguments in the batch CLI -/

/-- C6: the claim says a directory argument is expanded to the FITS files
it contains.  The source instead evaluates
`common.get_fits_files_list(input_directory_path)` where
`input_directory_path` is a name never bound in `main` (the loop variable
is `input_file_or_dir_path`), so every directory argument raises a
`NameError` and no expansion ever happens. -/
theorem C6_directory_arg_name_error (fs : FileSystem) (arg : String)
    (hdir : fs.isdir arg = true) :
    expandInputArg fs arg =
      Except.error "NameError: name input_directory_path is not defined" := by
  have hmem : "input_directory_path" ∉ mainScopeNames := by decide
  simp [expandInputArg, lookupVar, hdir, hmem]

/-- C6 witness: a concrete filesystem on which the directory branch runs. -/
theorem C6_directory_arg_name_error_witness :
    expandInputArg fsDir "fits_data" =
      Except.error "NameError: name input_directory_path is not defined" :=
  C6_directory_arg_name_error fsDir "fits_data" rfl

/-! Section: Claim C7: non-2D images raise in both paths -/

/-- C7: whenever the loaded input image or reference image is not a 2D
array, both the batch per-file processing and the GUI update path raise
unconditionally (modelled as `Except.error`), aborting that file. -/
theorem C7_non2d_raises (fit : List ℝ → List ℝ → List ℝ → HillasParams) (d : FitsData)
    (c : Collaborators) (s : GuiState) (path : String)
    (hnd : d.inputNdim ≠ 2 ∨ d.refNdim ≠ 2)
    (hfile : s.current_file_path = some path)
    (hload : c.load path = d) :
    processFile fit d =
      Except.error "Unexpected error: the input FITS file should contain a 2D array." ∧
    update_plots c s =
      Except.error "Unexpected error: the input FITS file should contain a 2D array." := by
  by_cases hin : d.inputNdim = 2
  · have href : d.refNdim ≠ 2 := by
      rcases hnd with h | h
      · exact absurd hin h
      · exact h
    constructor
    · simp [processFile, hin, href]
    · simp [update_plots, hfile, hload, hin, href]
  · constructor
    · simp [processFile, hin]
    · simp [update_plots, hfile, hload, hin]

/-- C7 witness: a loaded file whose input image is 3D. -/
theorem C7_non2d_raises_witness :
    processFile fitW dBad =
      Except.error "Unexpected error: the input FITS file should contain a 2D array." ∧
    update_plots cBad sBad =
      Except.error "Unexpected error: the input FITS file should contain a 2D array." :=
  C7_non2d_raises fitW dBad cBad sBad "f.fits" (Or.inl (by decide)) rfl rfl

/-! Section: Claim C8: assessment errors are caught per algorithm -/

/-- C8: when the assessment of both cleaned images raises an assessment
error, each error is caught in its own handler and reported, and the
pipeline still completes: `update_plots` returns normally with the four
image plots drawn and the canvas redrawn (once by `clear_figure` and once
at the end), without the missing scores. -/
theorem C8_assess_error_recovered (c : Collaborators) (s : GuiState) (path : String)
    (e1 e2 : String)
    (hfile : s.current_file_path = some path)
    (hnd1 : (c.load path).inputNdim = 2)
    (hnd2 : (c.load path).refNdim = 2)
    (htc : c.assess (c.load path).inputImg (c.tailcut_clean (c.load path).inputImg)
      (c.load path).refImg = Except.error e1)
    (hwt : c.assess (c.load path).inputImg
      (c.wavelets_clean s.kill_isolated_pixels s.wavelets_options (c.load path).inputImg)
      (c.load path).refImg = Except.error e2) :
    update_plots c s = Except.ok { s with
      figure := [("Input", (c.load path).inputImg), ("Reference", (c.load path).refImg),
                 ("Tailcut", c.tailcut_clean (c.load path).inputImg),
                 ("Wavelets", c.wavelets_clean s.kill_isolated_pixels s.wavelets_options
                    (c.load path).inputImg)],
      console := s.console ++ ["TC: AssessError", "WT: AssessError"],
      canvasDraws := s.canvasDraws + 1 + 1 } := by
  simp [update_plots, hfile, hnd1, hnd2, htc, hwt]

/-- C8 witness: concrete collaborators whose assessment always raises. -/
theorem C8_assess_error_recovered_witness :
    update_plots cGood sGood = Except.ok { sGood with
      figure := [("Input", (cGood.load "f.fits").inputImg),
                 ("Reference", (cGood.load "f.fits").refImg),
                 ("Tailcut", cGood.tailcut_clean (cGood.load "f.fits").inputImg),
                 ("Wavelets", cGood.wavelets_clean sGood.kill_isolated_pixels
                    sGood.wavelets_options (cGood.load "f.fits").inputImg)],
      console := sGood.console ++ ["TC: AssessError", "WT: AssessError"],
      canvasDraws := sGood.canvasDraws + 1 + 1 } :=
  C8_assess_error_recovered cGood sGood "f.fits" "AssessError" "AssessError"
    rfl rfl rfl rfl rfl

/-! Section: Claim C9: default output naming in the batch run -/

/-- C9 counterexample: with no `--output`, processing the two files
`foo.fits` and `bar.fits` saves both figures to `foo.pdf`: the claim that
each file's figure is saved to its own `<basename>.pdf` fails for the
second file (`bar.pdf` is never written). -/
theorem C9_counterexample :
    savePaths none ["foo.fits", "bar.fits"] = ["foo.pdf", "foo.pdf"] ∧
    ("foo.pdf" : String) ≠ "bar.pdf" := by
  constructor
  · rfl
  · decide

theorem savePathsAux_some (o : String) :
    ∀ files : List String, savePathsAux (some o) files = files.map (fun _ => o) := by
  intro files
  induction files with
  | nil => rfl
  | cons f rest ih => simp [savePathsAux, ih]

/-- C9 amended: when `--output` is not given, the first processed file's
figure is saved to that file's basename with a `.pdf` extension, and
every subsequent file's figure is saved to that same first path (the
`output` variable keeps its value once assigned), so per-file naming
holds only for the first file of a batch run. -/
theorem C9_default_output_sticky (f : String) (fs : List String) :
    savePaths none (f :: fs) =
      (splitextRoot (basename f) ++ ".pdf") ::
        fs.map (fun _ => splitextRoot (basename f) ++ ".pdf") := by
  simp [savePaths, savePathsAux, savePathsAux_some]

/-! Section: Claim C10: no selected file means no work -/

/-- C10: when the container's `current_file_path` is `None`, the GUI
update operation returns without raising, performs no computation with
any collaborator, and leaves the state (including the figure) unchanged:
for every choice of collaborators the result is `ok` of the unchanged
state. -/
theorem C10_no_file_noop (c : Collaborators) (s : GuiState)
    (hfile : s.current_file_path = none) :
    update_plots c s = Except.ok s := by
  simp [update_plots, hfile]

/-- C10 witness: a concrete state with no selected file. -/
theorem C10_no_file_noop_witness : update_plots cGood sNone = Except.ok sNone :=
  C10_no_file_noop cGood sNone rfl

end DataPipe
